import Mathlib

/-!
Verification of the 4D geometry and transform pipeline of the hyper4d
repository: 4D vector/matrix algebra (src/engine/math4d.ts), polytope
factories (src/engine/shapes4d.ts), the W-depth color mapper and the
per-tick dirty-check pipeline (src/components/Scene4D.tsx).

Numbers are embedded as elements of a linear ordered field (`ℚ` where the
source is pure rational arithmetic, `ℝ` where trigonometry or square roots
appear).  Source loops become `List.range`/`foldl`/`filter` constructions;
the loop-break caps of the shape factories become guarded folds.
-/

namespace Hyper4D

section Core

variable {K : Type} [LinearOrderedField K]

/-- Embeds `Vec4 = [number, number, number, number]` from math4d.ts. -/
structure Vec4 (K : Type) where
  x : K
  y : K
  z : K
  w : K
deriving DecidableEq

/-- Embeds `Vec3 = [number, number, number]` from math4d.ts. -/
structure Vec3 (K : Type) where
  x : K
  y : K
  z : K
deriving DecidableEq

/-- Embeds `Mat4x4 = [Vec4, Vec4, Vec4, Vec4]` (rows) from math4d.ts. -/
structure Mat4x4 (K : Type) where
  r0 : Vec4 K
  r1 : Vec4 K
  r2 : Vec4 K
  r3 : Vec4 K
deriving DecidableEq

instance {R : Type} [Zero R] : Inhabited (Vec4 R) := ⟨⟨0, 0, 0, 0⟩⟩

instance {R : Type} [Zero R] : Inhabited (Vec3 R) := ⟨⟨0, 0, 0⟩⟩

/-- Embeds `dot4` from math4d.ts. -/
def dot4 (a b : Vec4 K) : K :=
  a.x * b.x + a.y * b.y + a.z * b.z + a.w * b.w

/-- Embeds `length4` from math4d.ts (`Math.sqrt(dot4(v, v))`). -/
noncomputable def length4 (v : Vec4 ℝ) : ℝ :=
  Real.sqrt (dot4 v v)

/-- Embeds `identity4` from math4d.ts. -/
def identity4 : Mat4x4 K :=
  ⟨⟨1, 0, 0, 0⟩, ⟨0, 1, 0, 0⟩, ⟨0, 0, 1, 0⟩, ⟨0, 0, 0, 1⟩⟩

/-- Embeds `mulMat4` from math4d.ts: the k-loop of the standard 4x4 product,
unrolled; entry (i,j) is the sum of `a[i][k] * b[k][j]` over k. -/
def mulMat4 (a b : Mat4x4 K) : Mat4x4 K :=
  ⟨⟨a.r0.x * b.r0.x + a.r0.y * b.r1.x + a.r0.z * b.r2.x + a.r0.w * b.r3.x,
    a.r0.x * b.r0.y + a.r0.y * b.r1.y + a.r0.z * b.r2.y + a.r0.w * b.r3.y,
    a.r0.x * b.r0.z + a.r0.y * b.r1.z + a.r0.z * b.r2.z + a.r0.w * b.r3.z,
    a.r0.x * b.r0.w + a.r0.y * b.r1.w + a.r0.z * b.r2.w + a.r0.w * b.r3.w⟩,
   ⟨a.r1.x * b.r0.x + a.r1.y * b.r1.x + a.r1.z * b.r2.x + a.r1.w * b.r3.x,
    a.r1.x * b.r0.y + a.r1.y * b.r1.y + a.r1.z * b.r2.y + a.r1.w * b.r3.y,
    a.r1.x * b.r0.z + a.r1.y * b.r1.z + a.r1.z * b.r2.z + a.r1.w * b.r3.z,
    a.r1.x * b.r0.w + a.r1.y * b.r1.w + a.r1.z * b.r2.w + a.r1.w * b.r3.w⟩,
   ⟨a.r2.x * b.r0.x + a.r2.y * b.r1.x + a.r2.z * b.r2.x + a.r2.w * b.r3.x,
    a.r2.x * b.r0.y + a.r2.y * b.r1.y + a.r2.z * b.r2.y + a.r2.w * b.r3.y,
    a.r2.x * b.r0.z + a.r2.y * b.r1.z + a.r2.z * b.r2.z + a.r2.w * b.r3.z,
    a.r2.x * b.r0.w + a.r2.y * b.r1.w + a.r2.z * b.r2.w + a.r2.w * b.r3.w⟩,
   ⟨a.r3.x * b.r0.x + a.r3.y * b.r1.x + a.r3.z * b.r2.x + a.r3.w * b.r3.x,
    a.r3.x * b.r0.y + a.r3.y * b.r1.y + a.r3.z * b.r2.y + a.r3.w * b.r3.y,
    a.r3.x * b.r0.z + a.r3.y * b.r1.z + a.r3.z * b.r2.z + a.r3.w * b.r3.z,
    a.r3.x * b.r0.w + a.r3.y * b.r1.w + a.r3.z * b.r2.w + a.r3.w * b.r3.w⟩⟩

/-- Embeds `mulMatVec4` from math4d.ts. -/
def mulMatVec4 (m : Mat4x4 K) (v : Vec4 K) : Vec4 K :=
  ⟨m.r0.x * v.x + m.r0.y * v.y + m.r0.z * v.z + m.r0.w * v.w,
   m.r1.x * v.x + m.r1.y * v.y + m.r1.z * v.z + m.r1.w * v.w,
   m.r2.x * v.x + m.r2.y * v.y + m.r2.z * v.z + m.r2.w * v.w,
   m.r3.x * v.x + m.r3.y * v.y + m.r3.z * v.z + m.r3.w * v.w⟩

/-- Embeds `composeRotations(...matrices)` from math4d.ts:
`matrices.reduce((acc, m) => mulMat4(acc, m), identity4())`. -/
def composeRotations (matrices : List (Mat4x4 K)) : Mat4x4 K :=
  matrices.foldl mulMat4 identity4

/-- Embeds `projectPerspective4Dto3D` from math4d.ts. -/
def projectPerspective4Dto3D (point : Vec4 K) (viewDistance : K) : Vec3 K :=
  let w := viewDistance - point.w
  if |w| < 1 / 10000 then ⟨point.x * 1000, point.y * 1000, point.z * 1000⟩
  else
    let scale := viewDistance / w
    ⟨point.x * scale, point.y * scale, point.z * scale⟩

/-- Embeds `projectOrthographic4Dto3D` from math4d.ts. -/
def projectOrthographic4Dto3D (point : Vec4 K) : Vec3 K :=
  ⟨point.x, point.y, point.z⟩

/-- Embeds `projectStereographic4Dto3D` from math4d.ts. -/
def projectStereographic4Dto3D (point : Vec4 K) (projectionPoint : K) : Vec3 K :=
  let denom := projectionPoint - point.w
  if |denom| < 1 / 10000 then ⟨point.x * 1000, point.y * 1000, point.z * 1000⟩
  else ⟨point.x / denom, point.y / denom, point.z / denom⟩

end Core

section Rotations

/-- Embeds `rotateXY` from math4d.ts. -/
noncomputable def rotateXY (angle : ℝ) : Mat4x4 ℝ :=
  let c := Real.cos angle
  let s := Real.sin angle
  ⟨⟨c, -s, 0, 0⟩, ⟨s, c, 0, 0⟩, ⟨0, 0, 1, 0⟩, ⟨0, 0, 0, 1⟩⟩

/-- Embeds `rotateXZ` from math4d.ts. -/
noncomputable def rotateXZ (angle : ℝ) : Mat4x4 ℝ :=
  let c := Real.cos angle
  let s := Real.sin angle
  ⟨⟨c, 0, -s, 0⟩, ⟨0, 1, 0, 0⟩, ⟨s, 0, c, 0⟩, ⟨0, 0, 0, 1⟩⟩

/-- Embeds `rotateXW` from math4d.ts. -/
noncomputable def rotateXW (angle : ℝ) : Mat4x4 ℝ :=
  let c := Real.cos angle
  let s := Real.sin angle
  ⟨⟨c, 0, 0, -s⟩, ⟨0, 1, 0, 0⟩, ⟨0, 0, 1, 0⟩, ⟨s, 0, 0, c⟩⟩

/-- Embeds `rotateYZ` from math4d.ts. -/
noncomputable def rotateYZ (angle : ℝ) : Mat4x4 ℝ :=
  let c := Real.cos angle
  let s := Real.sin angle
  ⟨⟨1, 0, 0, 0⟩, ⟨0, c, -s, 0⟩, ⟨0, s, c, 0⟩, ⟨0, 0, 0, 1⟩⟩

/-- Embeds `rotateYW` from math4d.ts. -/
noncomputable def rotateYW (angle : ℝ) : Mat4x4 ℝ :=
  let c := Real.cos angle
  let s := Real.sin angle
  ⟨⟨1, 0, 0, 0⟩, ⟨0, c, 0, -s⟩, ⟨0, 0, 1, 0⟩, ⟨0, s, 0, c⟩⟩

/-- Embeds `rotateZW` from math4d.ts. -/
noncomputable def rotateZW (angle : ℝ) : Mat4x4 ℝ :=
  let c := Real.cos angle
  let s := Real.sin angle
  ⟨⟨1, 0, 0, 0⟩, ⟨0, 1, 0, 0⟩, ⟨0, 0, c, -s⟩, ⟨0, 0, s, c⟩⟩

/-- One of the six rotation-plane generator matrices of math4d.ts, at some angle. -/
def IsRotationGenerator (m : Mat4x4 ℝ) : Prop :=
  (∃ θ, m = rotateXY θ) ∨ (∃ θ, m = rotateXZ θ) ∨ (∃ θ, m = rotateXW θ) ∨
  (∃ θ, m = rotateYZ θ) ∨ (∃ θ, m = rotateYW θ) ∨ (∃ θ, m = rotateZW θ)

end Rotations

section ColorMapper

variable {K : Type} [LinearOrderedField K]

/-- Embeds `THREE.Color` as an rgb triple (components in [0,1], hex/255). -/
structure Color (K : Type) where
  r : K
  g : K
  b : K
deriving DecidableEq

/-- Deep midnight blue 0x0a1a3d, the first gradient stop of `wToColor`. -/
def DEEP_BLUE : Color K := ⟨10 / 255, 26 / 255, 61 / 255⟩

/-- Cyan 0x00bcd4, the second gradient stop of `wToColor`. -/
def CYAN : Color K := ⟨0, 188 / 255, 212 / 255⟩

/-- Magenta 0xe91e63, the third gradient stop of `wToColor`. -/
def MAGENTA : Color K := ⟨233 / 255, 30 / 255, 99 / 255⟩

/-- Gold 0xffc107, the last gradient stop of `wToColor`. -/
def GOLD : Color K := ⟨1, 193 / 255, 7 / 255⟩

/-- Embeds `THREE.Color.lerpColors(c1, c2, alpha)`: componentwise
`c1 + (c2 - c1) * alpha`. -/
def lerpColors (c1 c2 : Color K) (alpha : K) : Color K :=
  ⟨c1.r + (c2.r - c1.r) * alpha,
   c1.g + (c2.g - c1.g) * alpha,
   c1.b + (c2.b - c1.b) * alpha⟩

/-- Embeds `wToColor(w, minW, maxW)` from Scene4D.tsx (the math is identical in
`wToColorCached` of ColorCache.ts): `range = maxW - minW || 1`,
`t = clamp((w - minW)/range, 0, 1)`, then a piecewise-linear blend over the
four stops with breakpoints at t = 0.33 and t = 0.67. -/
def wToColor (w minW maxW : K) : Color K :=
  let range := if maxW - minW = 0 then 1 else maxW - minW
  let t := max 0 (min 1 ((w - minW) / range))
  if t < 33 / 100 then
    lerpColors DEEP_BLUE CYAN (t / (33 / 100))
  else if t < 67 / 100 then
    lerpColors CYAN MAGENTA ((t - 33 / 100) / (34 / 100))
  else
    lerpColors MAGENTA GOLD ((t - 67 / 100) / (33 / 100))

end ColorMapper

section Visibility

variable {K : Type} [LinearOrderedField K]

/-- The slice-band predicate of Scene4D.tsx:
`Math.abs(w - wSlicePosition) < wSliceThickness`. -/
def inSliceBand (w slicePosition thickness : K) : Bool :=
  decide (|w - slicePosition| < thickness)

/-- Vertex visibility from the Scene4D.tsx frame loop: `mesh.visible =
showVertices`, overwritten with `showVertices && |w - pos| < thickness` when
slicing is on. -/
def vertexVisibleCalc (showVertices showSlice : Bool)
    (w slicePosition thickness : K) : Bool :=
  if showSlice then showVertices && inSliceBand w slicePosition thickness
  else showVertices

/-- Edge visibility from the Scene4D.tsx frame loop: `visible = showEdges`,
overwritten with `showEdges && (in1 || in2)` when slicing is on. -/
def edgeVisibleCalc (showEdges showSlice : Bool)
    (w1 w2 slicePosition thickness : K) : Bool :=
  if showSlice then
    showEdges && (inSliceBand w1 slicePosition thickness ||
      inSliceBand w2 slicePosition thickness)
  else showEdges

end Visibility

section Morph

variable {K : Type} [LinearOrderedField K]

/-- The smooth-step easing of Scene4D.tsx: `easeT = t*t*(3 - 2*t)`. -/
def smoothstepEase (t : K) : K := t * t * (3 - 2 * t)

/-- Componentwise `fromV + (toV - fromV) * easeT` from the morph loop. -/
def lerpVertex (fromV toV : Vec4 K) (easeT : K) : Vec4 K :=
  ⟨fromV.x + (toV.x - fromV.x) * easeT,
   fromV.y + (toV.y - fromV.y) * easeT,
   fromV.z + (toV.z - fromV.z) * easeT,
   fromV.w + (toV.w - fromV.w) * easeT⟩

/-- The body of `toShape.vertices.map((toV, i) => ...)` in Scene4D.tsx, as a
recursion over the TO list carrying the matching prefix of the FROM list:
`fromV = fromShape.vertices[i] || toV`. -/
def morphZip (easeT : K) : List (Vec4 K) → List (Vec4 K) → List (Vec4 K)
  | _, [] => []
  | [], toV :: toRest => lerpVertex toV toV easeT :: morphZip easeT [] toRest
  | fromV :: fromRest, toV :: toRest =>
      lerpVertex fromV toV easeT :: morphZip easeT fromRest toRest

/-- The morphed vertex list of Scene4D.tsx for a given transition progress. -/
def morphVertices (fromVerts toVerts : List (Vec4 K)) (progress : K) :
    List (Vec4 K) :=
  morphZip (smoothstepEase progress) fromVerts toVerts

/-- Transition progress advance from Scene4D.tsx:
`if (progress < 1) progress = Math.min(1, progress + delta * 2.5)`. -/
def advanceTransitionProgress (progress delta : K) : K :=
  if progress < 1 then min 1 (progress + delta * (5 / 2)) else progress

/-- Vertex selection of Scene4D.tsx: morph only while a transition is active
(`progress < 1 && fromShape`), else the active shape's vertices. -/
def currentVerticesCalc (progress : K) (fromShape : Option (List (Vec4 K)))
    (toVerts : List (Vec4 K)) : List (Vec4 K) :=
  match fromShape with
  | some fromVerts =>
      if progress < 1 then morphVertices fromVerts toVerts progress else toVerts
  | none => toVerts

end Morph

section Shapes

variable {K : Type} [LinearOrderedField K]

/-- Embeds the `Shape4D` interface of shapes4d.ts (the optional faces/cells
fields are never populated by the factories under verification). -/
structure Shape4D (K : Type) where
  name : String
  description : String
  vertices : List (Vec4 K)
  edges : List (ℕ × ℕ)
  color : String

/-- The nested index loop `for i; for j = i+1 ...` shared by the factories,
producing the pairs (i, j) with i < j < n in source order. -/
def upperPairs (n : ℕ) : List (ℕ × ℕ) :=
  (List.range n).flatMap fun i => ((List.range n).drop (i + 1)).map fun j => (i, j)

/-- The inline squared-distance computation `dx*dx + dy*dy + dz*dz + dw*dw`
of the edge loops in shapes4d.ts. -/
def dist2 {R : Type} [Ring R] (a b : Vec4 R) : R :=
  (a.x - b.x) * (a.x - b.x) + (a.y - b.y) * (a.y - b.y) +
  (a.z - b.z) * (a.z - b.z) + (a.w - b.w) * (a.w - b.w)

/-- Tesseract vertex i of shapes4d.ts: `(i & 1) ? s : -s` per coordinate. -/
def tesseractVertex (i : ℕ) (s : K) : Vec4 K :=
  ⟨if i &&& 1 ≠ 0 then s else -s,
   if i &&& 2 ≠ 0 then s else -s,
   if i &&& 4 ≠ 0 then s else -s,
   if i &&& 8 ≠ 0 then s else -s⟩

/-- Embeds `createTesseract(size)` from shapes4d.ts. -/
def createTesseract (size : K) : Shape4D K :=
  let s := size / 2
  let vertices := (List.range 16).map fun i => tesseractVertex i s
  let edges := (upperPairs 16).filter fun p =>
    let diff := p.1 ^^^ p.2
    decide (diff ≠ 0) && decide (diff &&& (diff - 1) = 0)
  ⟨"Tesseract", "4D hypercube", vertices, edges, "#4fc3f7"⟩

/-- Embeds `create16Cell(size)` from shapes4d.ts. -/
def create16Cell (size : K) : Shape4D K :=
  let s := size
  let vertices : List (Vec4 K) :=
    [⟨s, 0, 0, 0⟩, ⟨-s, 0, 0, 0⟩, ⟨0, s, 0, 0⟩, ⟨0, -s, 0, 0⟩,
     ⟨0, 0, s, 0⟩, ⟨0, 0, -s, 0⟩, ⟨0, 0, 0, s⟩, ⟨0, 0, 0, -s⟩]
  let edges := (upperPairs 8).filter fun p => decide (p.1 / 2 ≠ p.2 / 2)
  ⟨"16-Cell", "4D hyperoctahedron", vertices, edges, "#ff7043"⟩

/-- A 24-cell axis vertex of shapes4d.ts: the zero vector with `pos[i] = t`. -/
def axisVertex {R : Type} [Ring R] (i : ℕ) (t : R) : Vec4 R :=
  ⟨if i = 0 then t else 0, if i = 1 then t else 0,
   if i = 2 then t else 0, if i = 3 then t else 0⟩

/-- A 24-cell half vertex of shapes4d.ts: `(i & 1) ? h : -h` per coordinate. -/
def halfVertex {R : Type} [Ring R] (i : ℕ) (h : R) : Vec4 R :=
  ⟨if i &&& 1 ≠ 0 then h else -h,
   if i &&& 2 ≠ 0 then h else -h,
   if i &&& 4 ≠ 0 then h else -h,
   if i &&& 8 ≠ 0 then h else -h⟩

/-- The 24-cell vertex list of shapes4d.ts (engine version): for each axis the
pair (+s, -s), then the 16 sign combinations of (±s/2, ±s/2, ±s/2, ±s/2). -/
def create24CellVertices (s : K) : List (Vec4 K) :=
  ((List.range 4).flatMap fun i => [axisVertex i s, axisVertex i (-s)]) ++
    ((List.range 16).map fun i => halfVertex i (s / 2))

/-- Embeds `create24Cell(size)` from src/engine/shapes4d.ts (the 24-vertex
variant): edge iff `Math.abs(dist2 - s*s) < 0.01`. -/
def create24Cell (size : K) : Shape4D K :=
  let s := size
  let vertices := create24CellVertices s
  let edges := (upperPairs vertices.length).filter fun p =>
    let vi := vertices.getD p.1 default
    let vj := vertices.getD p.2 default
    decide (|dist2 vi vj - s * s| < 1 / 100)
  ⟨"24-Cell", "4D self-dual polytope", vertices, edges, "#ab47bc"⟩

/-- Embeds `create5Cell(size)` from shapes4d.ts: the fixed simplex template,
then each vertex rescaled to radius `targetR = size` when its length is
positive, and the complete graph K5. -/
noncomputable def create5Cell (size : ℝ) : Shape4D ℝ :=
  let s := size
  let a := s / Real.sqrt 10
  let b := s / Real.sqrt 6
  let c := s / Real.sqrt 3
  let d := s
  let raw : List (Vec4 ℝ) :=
    [⟨a * 4, 0, 0, 0⟩, ⟨-a, b * 3, 0, 0⟩, ⟨-a, -b, c * 2, 0⟩,
     ⟨-a, -b, -c, d⟩, ⟨-a, -b, -c, -d⟩]
  let targetR := size
  let vertices := raw.map fun v =>
    let len := Real.sqrt (v.x ^ 2 + v.y ^ 2 + v.z ^ 2 + v.w ^ 2)
    if 0 < len then
      ⟨v.x / len * targetR, v.y / len * targetR, v.z / len * targetR,
       v.w / len * targetR⟩
    else v
  let edges := upperPairs 5
  ⟨"5-Cell", "4D simplex", vertices, edges, "#66bb6a"⟩

/-- A 4D-sphere sample point of src/engine/shapes4d.ts, at loop indices
(i, j, k) with `theta1 = pi*i/detail`, `theta2 = pi*j/detail`,
`theta3 = pi*k/2`. -/
noncomputable def sphereVertex (radius : ℝ) (detail i j k : ℕ) : Vec4 ℝ :=
  let theta1 := Real.pi * i / detail
  let theta2 := Real.pi * j / detail
  let theta3 := Real.pi * k / 2
  ⟨radius * Real.sin theta1 * Real.sin theta2 * Real.cos theta3,
   radius * Real.sin theta1 * Real.sin theta2 * Real.sin theta3,
   radius * Real.sin theta1 * Real.cos theta2,
   radius * Real.cos theta1⟩

/-- A fold that appends `f x` while the accumulator is below the cap,
modelling the `&& list.length < MAX` guards of the shapes4d.ts loops (once
the cap is reached every loop exits, so no further element is appended). -/
def cappedMap {α β : Type} (cap : ℕ) (f : α → β) (l : List α) : List β :=
  l.foldl (fun acc x => if acc.length < cap then acc ++ [f x] else acc) []

/-- The (i, j, k) index triples visited by the triple sampling loop of
`create4DSphere` (i < detail, j < detail*2, k < 4), in source order. -/
def sphereSampleIndices (d : ℕ) : List (ℕ × ℕ × ℕ) :=
  (List.range d).flatMap fun i =>
    (List.range (d * 2)).flatMap fun j =>
      (List.range 4).map fun k => (i, j, k)

/-- Embeds `create4DSphere(radius, detail)` from src/engine/shapes4d.ts:
triple sampling loop (i < detail, j < detail*2, k < 4) capped at
`MAX_SPHERE_VERTICES = 256`, then the distance-threshold edge loop capped at
`MAX_EDGES = 1024` with `threshold = (radius * 0.6) ** 2`. -/
noncomputable def create4DSphere (radius : ℝ) (detail : ℕ) : Shape4D ℝ :=
  let d := min detail 5
  let vertices : List (Vec4 ℝ) :=
    cappedMap 256 (fun t => sphereVertex radius d t.1 t.2.1 t.2.2)
      (sphereSampleIndices d)
  let threshold := (radius * (6 / 10)) * (radius * (6 / 10))
  let edges : List (ℕ × ℕ) :=
    (upperPairs vertices.length).foldl
      (fun acc p =>
        if acc.length < 1024 then
          if dist2 (vertices.getD p.1 default) (vertices.getD p.2 default) <
              threshold then
            acc ++ [p]
          else acc
        else acc)
      []
  ⟨"4D Sphere", "the 3-sphere, sampled and wireframed", vertices, edges,
   "#ef5350"⟩

end Shapes

section Pipeline

/-- The six-plane rotation record of useStore/Scene4D. -/
structure RotationState where
  xy : ℝ
  xz : ℝ
  xw : ℝ
  yz : ℝ
  yw : ℝ
  zw : ℝ

/-- The three projection modes dispatched by the `project` callback. -/
inductive ProjMode where
  | perspective
  | orthographic
  | stereographic
deriving DecidableEq

/-- The `lastUpdateRef.current` snapshot of Scene4D.tsx. -/
structure LastUpdateState where
  rotation : RotationState
  projectionMode : ProjMode
  viewDistance : ℝ
  showSlice : Bool
  wSlicePosition : ℝ
  wSliceThickness : ℝ
  colorByW : Bool

/-- The per-tick inputs consumed by the Scene4D.tsx frame callback: store
props, the active shape's data, the morph source, and the elapsed time. -/
structure FrameInputs where
  rotation : RotationState
  autoRotation : RotationState
  isAutoRotating : Bool
  projectionMode : ProjMode
  viewDistance : ℝ
  showVertices : Bool
  showEdges : Bool
  showSlice : Bool
  wSlicePosition : ℝ
  wSliceThickness : ℝ
  colorByW : Bool
  isSliceAnimating : Bool
  sliceAnimationSpeed : ℝ
  shapeVertices : List (Vec4 ℝ)
  shapeEdges : List (ℕ × ℕ)
  fromShapeVertices : Option (List (Vec4 ℝ))
  delta : ℝ

/-- The outputs the frame loop publishes into the renderer's buffers:
per-vertex 3D position, visibility and color; per-edge segment (collapsed to
the origin when invisible) and endpoint colors; and the tick's w-range. -/
structure PublishedOutputs where
  vertexPositions : List (Vec3 ℝ)
  vertexVisibility : List Bool
  vertexColors : List (Color ℝ)
  edgeSegments : List (Vec3 ℝ × Vec3 ℝ)
  edgeColors : List (Color ℝ × Color ℝ)
  minW : ℝ
  maxW : ℝ

/-- Pipeline-owned mutable state across ticks: the auto-rotation
accumulator (`rotationRef`), the shape-transition progress, the dirty-check
snapshot (`lastUpdateRef`) and the currently published outputs. -/
structure PipelineState where
  rotationAccum : RotationState
  transitionProgress : ℝ
  lastUpdate : LastUpdateState
  published : PublishedOutputs

/-- Accumulator advance for one tick: `accum[p] += autoVelocity[p] * delta`
for each plane, applied only when auto-rotation is on. -/
noncomputable def advanceAccum (accum vel : RotationState) (delta : ℝ) : RotationState :=
  ⟨accum.xy + vel.xy * delta, accum.xz + vel.xz * delta,
   accum.xw + vel.xw * delta, accum.yz + vel.yz * delta,
   accum.yw + vel.yw * delta, accum.zw + vel.zw * delta⟩

/-- Per-plane total rotation: accumulator + manual (`totalR` in Scene4D). -/
noncomputable def totalRotation (accum manual : RotationState) : RotationState :=
  ⟨accum.xy + manual.xy, accum.xz + manual.xz, accum.xw + manual.xw,
   accum.yz + manual.yz, accum.yw + manual.yw, accum.zw + manual.zw⟩

/-- The dirty-check of the Scene4D.tsx frame loop, in source order: an active
shape transition or auto-rotation or an active slice scan forces an update;
otherwise any manual-rotation delta above 0.001, or a projection/slice/color
config change beyond the code's tolerances, does. -/
noncomputable def needsUpdateCalc (inp : FrameInputs) (st : PipelineState) : Bool :=
  decide (st.transitionProgress < 1) ||
  inp.isAutoRotating ||
  (inp.isSliceAnimating && inp.showSlice) ||
  (decide (|inp.rotation.xy - st.lastUpdate.rotation.xy| > 1 / 1000) ||
   decide (|inp.rotation.xz - st.lastUpdate.rotation.xz| > 1 / 1000) ||
   decide (|inp.rotation.xw - st.lastUpdate.rotation.xw| > 1 / 1000) ||
   decide (|inp.rotation.yz - st.lastUpdate.rotation.yz| > 1 / 1000) ||
   decide (|inp.rotation.yw - st.lastUpdate.rotation.yw| > 1 / 1000) ||
   decide (|inp.rotation.zw - st.lastUpdate.rotation.zw| > 1 / 1000)) ||
  (decide (inp.projectionMode ≠ st.lastUpdate.projectionMode) ||
   decide (|st.lastUpdate.viewDistance - inp.viewDistance| > 1 / 100) ||
   decide (inp.showSlice ≠ st.lastUpdate.showSlice) ||
   decide (|st.lastUpdate.wSlicePosition - inp.wSlicePosition| > 1 / 100) ||
   decide (|st.lastUpdate.wSliceThickness - inp.wSliceThickness| > 1 / 100) ||
   decide (inp.colorByW ≠ st.lastUpdate.colorByW))

/-- The `project` callback of Scene4D.tsx: dispatch on the projection mode. -/
noncomputable def projectByMode (mode : ProjMode) (viewDistance : ℝ)
    (p : Vec4 ℝ) : Vec3 ℝ :=
  match mode with
  | .orthographic => projectOrthographic4Dto3D p
  | .stereographic => projectStereographic4Dto3D p viewDistance
  | .perspective => projectPerspective4Dto3D p viewDistance

/-- `Math.min(...wValues)` over a nonempty list (0 for the empty list). -/
noncomputable def minList (l : List ℝ) : ℝ :=
  match l with
  | [] => 0
  | h :: t => t.foldl min h

/-- `Math.max(...wValues)` over a nonempty list (0 for the empty list). -/
noncomputable def maxList (l : List ℝ) : ℝ :=
  match l with
  | [] => 0
  | h :: t => t.foldl max h

/-- The recompute path of the Scene4D.tsx frame loop (run only when the
dirty-check fired): compose the six generators at the total angles, morph,
transform, project, track the w-range, and rewrite visibility, segments and
colors.  When `colorByW` is off the color buffers keep their previous
contents. -/
noncomputable def computePublished (inp : FrameInputs)
    (accumAfter : RotationState) (progressAfter : ℝ)
    (prev : PublishedOutputs) : PublishedOutputs :=
  let totalR := totalRotation accumAfter inp.rotation
  let rotMatrix := composeRotations
    [rotateXY totalR.xy, rotateXZ totalR.xz, rotateXW totalR.xw,
     rotateYZ totalR.yz, rotateYW totalR.yw, rotateZW totalR.zw]
  let currentVertices :=
    currentVerticesCalc progressAfter inp.fromShapeVertices inp.shapeVertices
  let transformed := currentVertices.map (mulMatVec4 rotMatrix)
  let projected := transformed.map (projectByMode inp.projectionMode inp.viewDistance)
  let wValues := transformed.map Vec4.w
  let minW := minList wValues
  let maxW := maxList wValues
  let vertexVisibility := transformed.map fun v =>
    vertexVisibleCalc inp.showVertices inp.showSlice v.w inp.wSlicePosition
      inp.wSliceThickness
  let vertexColors :=
    if inp.colorByW then transformed.map fun v => wToColor v.w minW maxW
    else prev.vertexColors
  let edgeSegments := inp.shapeEdges.map fun e =>
    let w1 := (transformed.getD e.1 default).w
    let w2 := (transformed.getD e.2 default).w
    if edgeVisibleCalc inp.showEdges inp.showSlice w1 w2 inp.wSlicePosition
        inp.wSliceThickness then
      (projected.getD e.1 default, projected.getD e.2 default)
    else (⟨0, 0, 0⟩, ⟨0, 0, 0⟩)
  let edgeColors :=
    if inp.colorByW then
      inp.shapeEdges.map fun e =>
        (wToColor (transformed.getD e.1 default).w minW maxW,
         wToColor (transformed.getD e.2 default).w minW maxW)
    else prev.edgeColors
  ⟨projected, vertexVisibility, vertexColors, edgeSegments, edgeColors,
   minW, maxW⟩

/-- The dirty-check snapshot written after a recompute (lines 180-188 of
Scene4D.tsx): the current props. -/
def snapshotOf (inp : FrameInputs) : LastUpdateState :=
  ⟨inp.rotation, inp.projectionMode, inp.viewDistance, inp.showSlice,
   inp.wSlicePosition, inp.wSliceThickness, inp.colorByW⟩

/-- One tick of the Scene4D.tsx frame loop: advance transition progress and
the auto-rotation accumulator (both advances set the dirty flag whenever they
change anything), then either skip (outputs and snapshot untouched) or
recompute and publish. -/
noncomputable def tick (inp : FrameInputs) (st : PipelineState) :
    PipelineState :=
  let progressAfter := advanceTransitionProgress st.transitionProgress inp.delta
  let accumAfter :=
    if inp.isAutoRotating then
      advanceAccum st.rotationAccum inp.autoRotation inp.delta
    else st.rotationAccum
  if needsUpdateCalc inp st then
    ⟨accumAfter, progressAfter, snapshotOf inp,
     computePublished inp accumAfter progressAfter st.published⟩
  else ⟨accumAfter, progressAfter, st.lastUpdate, st.published⟩

end Pipeline

section MorphLemmas

variable {K : Type} [LinearOrderedField K]

theorem smoothstepEase_zero : smoothstepEase (0 : K) = 0 := by
  simp [smoothstepEase]

theorem smoothstepEase_one : smoothstepEase (1 : K) = 1 := by
  norm_num [smoothstepEase]

theorem lerpVertex_zero (fromV toV : Vec4 K) : lerpVertex fromV toV 0 = fromV := by
  simp [lerpVertex]

theorem lerpVertex_one (fromV toV : Vec4 K) : lerpVertex fromV toV 1 = toV := by
  simp [lerpVertex]

theorem morphZip_one : ∀ f t : List (Vec4 K), morphZip 1 f t = t := by
  intro f t
  induction t generalizing f with
  | nil => cases f <;> rfl
  | cons tv ts ih =>
    cases f with
    | nil => simp [morphZip, lerpVertex_one, ih]
    | cons fv fs => simp [morphZip, lerpVertex_one, ih]

theorem morphZip_length (e : K) :
    ∀ f t : List (Vec4 K), (morphZip e f t).length = t.length := by
  intro f t
  induction t generalizing f with
  | nil => cases f <;> rfl
  | cons tv ts ih =>
    cases f with
    | nil => simp [morphZip, ih]
    | cons fv fs => simp [morphZip, ih]

theorem morphZip_zero_getD :
    ∀ (f t : List (Vec4 K)) (i : ℕ) (d : Vec4 K), i < t.length →
      (morphZip 0 f t).getD i d =
        if i < f.length then f.getD i d else t.getD i d := by
  intro f t
  induction t generalizing f with
  | nil => intro i d h; simp at h
  | cons tv ts ih =>
    intro i d h
    cases f with
    | nil =>
      cases i with
      | zero => simp [morphZip, lerpVertex_zero]
      | succ n =>
        have := ih [] n d (by simpa using h)
        simpa [morphZip] using this
    | cons fv fs =>
      cases i with
      | zero => simp [morphZip, lerpVertex_zero]
      | succ n =>
        have := ih fs n d (by simpa using h)
        simpa [morphZip] using this

end MorphLemmas

section ClaimTheoremsFunctional

/-- C5: with slicing enabled a vertex is visible iff its display toggle is on
and |w - slicePosition| < thickness, an edge iff its toggle is on and at least
one endpoint satisfies that predicate (one endpoint inside suffices, both
outside hides it); with slicing disabled visibility equals the toggle alone. -/
theorem C5_slice_visibility {K : Type} [LinearOrderedField K]
    (showVertices showEdges : Bool) (w w1 w2 pos th : K) :
    (vertexVisibleCalc showVertices true w pos th =
      (showVertices && decide (|w - pos| < th))) ∧
    (vertexVisibleCalc showVertices false w pos th = showVertices) ∧
    (edgeVisibleCalc showEdges true w1 w2 pos th =
      (showEdges && (decide (|w1 - pos| < th) || decide (|w2 - pos| < th)))) ∧
    (edgeVisibleCalc showEdges false w1 w2 pos th = showEdges) ∧
    (|w1 - pos| < th → ¬|w2 - pos| < th →
      edgeVisibleCalc true true w1 w2 pos th = true) ∧
    (¬|w1 - pos| < th → ¬|w2 - pos| < th →
      edgeVisibleCalc showEdges true w1 w2 pos th = false) := by
  refine ⟨by simp [vertexVisibleCalc, inSliceBand],
    by simp [vertexVisibleCalc],
    by simp [edgeVisibleCalc, inSliceBand],
    by simp [edgeVisibleCalc], ?_, ?_⟩
  · intro h1 h2
    simp [edgeVisibleCalc, inSliceBand, h1, h2]
  · intro h1 h2
    simp [edgeVisibleCalc, inSliceBand, h1, h2]

/-- Witness for C5 at concrete rational inputs: an edge with exactly one
endpoint inside the band is visible, one with both endpoints outside is not. -/
theorem C5_witness :
    edgeVisibleCalc true true (0 : ℚ) 5 0 1 = true ∧
    edgeVisibleCalc true true (5 : ℚ) 6 0 1 = false := by
  constructor
  · exact (C5_slice_visibility true true 0 0 5 0 1).2.2.2.2.1 (by norm_num)
      (by norm_num)
  · exact (C5_slice_visibility true true 0 5 6 0 1).2.2.2.2.2 (by norm_num)
      (by norm_num)

/-- C6: projectPerspective4Dto3D scales p.xyz by viewDistance/(viewDistance -
p.w) when |viewDistance - p.w| is at least 1e-4 and by the finite fallback
factor 1000 otherwise; in particular at p.w = viewDistance the fallback
branch is taken (in this total embedding no division by a near-zero
denominator ever occurs, so the result is always a finite field element). -/
theorem C6_perspective_guard {K : Type} [LinearOrderedField K]
    (p : Vec4 K) (viewDistance : K) :
    (1 / 10000 ≤ |viewDistance - p.w| →
      projectPerspective4Dto3D p viewDistance =
        ⟨p.x * (viewDistance / (viewDistance - p.w)),
         p.y * (viewDistance / (viewDistance - p.w)),
         p.z * (viewDistance / (viewDistance - p.w))⟩) ∧
    (|viewDistance - p.w| < 1 / 10000 →
      projectPerspective4Dto3D p viewDistance =
        ⟨p.x * 1000, p.y * 1000, p.z * 1000⟩) ∧
    (p.w = viewDistance →
      projectPerspective4Dto3D p viewDistance =
        ⟨p.x * 1000, p.y * 1000, p.z * 1000⟩) := by
  refine ⟨fun h => ?_, fun h => ?_, fun h => ?_⟩
  · simp only [projectPerspective4Dto3D]
    rw [if_neg (not_lt.mpr h)]
  · simp only [projectPerspective4Dto3D]
    rw [if_pos h]
  · simp only [projectPerspective4Dto3D, h]
    rw [if_pos (by rw [sub_self, abs_zero]; norm_num :
      |viewDistance - viewDistance| < (1 : K) / 10000)]

/-- Witness for C6 at concrete rational inputs: the normal branch at
w = 0, viewDistance = 3, and the epsilon fallback at w = viewDistance = 3. -/
theorem C6_witness :
    ((1 : ℚ) / 10000 ≤ |3 - (0 : ℚ)| ∧
      projectPerspective4Dto3D (⟨1, 2, 3, 0⟩ : Vec4 ℚ) 3 =
        ⟨1 * (3 / (3 - 0)), 2 * (3 / (3 - 0)), 3 * (3 / (3 - 0))⟩) ∧
    ((3 : ℚ) = 3 ∧
      projectPerspective4Dto3D (⟨1, 2, 3, 3⟩ : Vec4 ℚ) 3 =
        ⟨1 * 1000, 2 * 1000, 3 * 1000⟩) := by
  constructor
  · exact ⟨by norm_num,
      (C6_perspective_guard (⟨1, 2, 3, 0⟩ : Vec4 ℚ) 3).1 (by norm_num)⟩
  · exact ⟨rfl, (C6_perspective_guard (⟨1, 2, 3, 3⟩ : Vec4 ℚ) 3).2.2 rfl⟩

/-- C7: while a transition is active progress advances by 2.5 times delta,
clamped to 1; the morphed list is indexed over the TO shape's vertices; at
progress 0 a morphed vertex equals the FROM vertex when the index exists in
the FROM shape and the TO vertex otherwise; at progress 1 the morphed list
(and the vertex selection of the frame loop) equals the TO shape exactly. -/
theorem C7_morph_interpolation {K : Type} [LinearOrderedField K]
    (fromVerts toVerts : List (Vec4 K)) (progress delta : K)
    (i : ℕ) (d : Vec4 K) :
    (progress < 1 →
      advanceTransitionProgress progress delta =
        min 1 (progress + delta * (5 / 2))) ∧
    advanceTransitionProgress progress delta ≤ max 1 progress ∧
    (morphVertices fromVerts toVerts progress).length = toVerts.length ∧
    (i < toVerts.length →
      (morphVertices fromVerts toVerts 0).getD i d =
        if i < fromVerts.length then fromVerts.getD i d else toVerts.getD i d) ∧
    morphVertices fromVerts toVerts 1 = toVerts ∧
    currentVerticesCalc 1 (some fromVerts) toVerts = toVerts := by
  refine ⟨fun h => by rw [advanceTransitionProgress, if_pos h], ?_, ?_, ?_, ?_, ?_⟩
  · rw [advanceTransitionProgress]
    by_cases h : progress < 1
    · rw [if_pos h]
      exact le_trans (min_le_left _ _) (le_max_left _ _)
    · rw [if_neg h]
      exact le_max_right _ _
  · exact morphZip_length _ fromVerts toVerts
  · intro h
    rw [morphVertices, smoothstepEase_zero]
    exact morphZip_zero_getD fromVerts toVerts i d h
  · rw [morphVertices, smoothstepEase_one]
    exact morphZip_one fromVerts toVerts
  · rw [currentVerticesCalc]
    simp

/-- Witness for C7 at concrete rational lists: a two-vertex TO shape morphing
from a one-vertex FROM shape, checked at progress 0, 1 and mid-transition. -/
theorem C7_witness :
    ((1 : ℚ) / 2 < 1 ∧
      advanceTransitionProgress ((1 : ℚ) / 2) (1 / 10) =
        min 1 (1 / 2 + (1 / 10) * (5 / 2))) ∧
    (morphVertices [(⟨1, 0, 0, 0⟩ : Vec4 ℚ)] [⟨0, 1, 0, 0⟩, ⟨2, 2, 2, 2⟩]
        0).getD 1 default = ⟨2, 2, 2, 2⟩ ∧
    morphVertices [(⟨1, 0, 0, 0⟩ : Vec4 ℚ)] [⟨0, 1, 0, 0⟩, ⟨2, 2, 2, 2⟩] 1 =
      [⟨0, 1, 0, 0⟩, ⟨2, 2, 2, 2⟩] := by
  refine ⟨⟨by norm_num, ?_⟩, ?_, ?_⟩
  · exact (C7_morph_interpolation [(⟨1, 0, 0, 0⟩ : Vec4 ℚ)]
      [⟨0, 1, 0, 0⟩, ⟨2, 2, 2, 2⟩] (1 / 2) (1 / 10) 0 default).1 (by norm_num)
  · have := (C7_morph_interpolation [(⟨1, 0, 0, 0⟩ : Vec4 ℚ)]
      [⟨0, 1, 0, 0⟩, ⟨2, 2, 2, 2⟩] (1 / 2) (1 / 10) 1 default).2.2.2.1
      (by norm_num)
    simpa using this
  · exact (C7_morph_interpolation [(⟨1, 0, 0, 0⟩ : Vec4 ℚ)]
      [⟨0, 1, 0, 0⟩, ⟨2, 2, 2, 2⟩] (1 / 2) (1 / 10) 1 default).2.2.2.2.1

/-- C8: with a nonzero range, wToColor hits the four gradient stops exactly:
deep blue at w = minW, cyan at t = 0.33, magenta at t = 0.67, gold at
w = maxW (each segment is the linear blend lerpColors of its two stops). -/
theorem C8_wToColor_stops {K : Type} [LinearOrderedField K]
    (minW maxW : K) (h : minW < maxW) :
    wToColor minW minW maxW = DEEP_BLUE ∧
    wToColor maxW minW maxW = GOLD ∧
    wToColor (minW + (33 / 100) * (maxW - minW)) minW maxW = CYAN ∧
    wToColor (minW + (67 / 100) * (maxW - minW)) minW maxW = MAGENTA := by
  have hr0 : ¬(maxW - minW = 0) := sub_ne_zero_of_ne h.ne'
  have hrange : (if maxW - minW = 0 then (1 : K) else maxW - minW) =
      maxW - minW := if_neg hr0
  refine ⟨?_, ?_, ?_, ?_⟩
  · have ht : max 0 (min 1 ((minW - minW) / (maxW - minW))) = (0 : K) := by
      rw [sub_self, zero_div]
      norm_num
    simp only [wToColor, hrange, ht]
    rw [if_pos (by norm_num : (0 : K) < 33 / 100)]
    norm_num [lerpColors, DEEP_BLUE, CYAN]
  · have ht : max 0 (min 1 ((maxW - minW) / (maxW - minW))) = (1 : K) := by
      rw [div_self hr0]
      norm_num
    simp only [wToColor, hrange, ht]
    rw [if_neg (by norm_num : ¬((1 : K) < 33 / 100)),
      if_neg (by norm_num : ¬((1 : K) < 67 / 100))]
    have hs : ((1 : K) - 67 / 100) / (33 / 100) = 1 := by
      rw [show (1 : K) - 67 / 100 = 33 / 100 by norm_num]
      exact div_self (by norm_num)
    rw [hs]
    norm_num [lerpColors, MAGENTA, GOLD]
  · have ht : max 0 (min 1 ((minW + (33 / 100) * (maxW - minW) - minW) /
        (maxW - minW))) = (33 / 100 : K) := by
      rw [show minW + (33 / 100) * (maxW - minW) - minW =
        (33 / 100) * (maxW - minW) by ring, mul_div_assoc, div_self hr0,
        mul_one]
      norm_num
    simp only [wToColor, hrange, ht]
    rw [if_neg (by norm_num : ¬((33 / 100 : K) < 33 / 100)),
      if_pos (by norm_num : (33 / 100 : K) < 67 / 100)]
    norm_num [lerpColors, CYAN, MAGENTA]
  · have ht : max 0 (min 1 ((minW + (67 / 100) * (maxW - minW) - minW) /
        (maxW - minW))) = (67 / 100 : K) := by
      rw [show minW + (67 / 100) * (maxW - minW) - minW =
        (67 / 100) * (maxW - minW) by ring, mul_div_assoc, div_self hr0,
        mul_one]
      norm_num
    simp only [wToColor, hrange, ht]
    rw [if_neg (by norm_num : ¬((67 / 100 : K) < 33 / 100)),
      if_neg (by norm_num : ¬((67 / 100 : K) < 67 / 100))]
    norm_num [lerpColors, MAGENTA, GOLD]

/-- Witness for C8 on the concrete rational range minW = 0, maxW = 2. -/
theorem C8_witness :
    (0 : ℚ) < 2 ∧
    wToColor (0 : ℚ) 0 2 = DEEP_BLUE ∧
    wToColor (2 : ℚ) 0 2 = GOLD ∧
    wToColor ((0 : ℚ) + (33 / 100) * (2 - 0)) 0 2 = CYAN ∧
    wToColor ((0 : ℚ) + (67 / 100) * (2 - 0)) 0 2 = MAGENTA := by
  have h := C8_wToColor_stops (0 : ℚ) 2 (by norm_num)
  exact ⟨by norm_num, h.1, h.2.1, h.2.2.1, h.2.2.2⟩

end ClaimTheoremsFunctional

section Cell24Model

/-- The 24-cell vertex list with all coordinates doubled, making it an
integer point set: axis vertices at ±2, half vertices at ±1.  Kernel
computation on this list replaces computation on the rational list. -/
def v24Int : List (Vec4 ℤ) :=
  ((List.range 4).flatMap fun i => [axisVertex i 2, axisVertex i (-2)]) ++
    ((List.range 16).map fun i => halfVertex i 1)

/-- Squared distance between two doubled-coordinate 24-cell vertices; equals
4/s^2 times the squared distance of the size-s vertices. -/
def d24 (p : ℕ × ℕ) : ℤ :=
  dist2 (v24Int.getD p.1 default) (v24Int.getD p.2 default)

/-- Maps a doubled integer vertex back to the size-s rational/real vertex. -/
def scaleHalf {K : Type} [LinearOrderedField K] (s : K) (v : Vec4 ℤ) : Vec4 K :=
  ⟨s / 2 * v.x, s / 2 * v.y, s / 2 * v.z, s / 2 * v.w⟩

theorem v24_scale {K : Type} [LinearOrderedField K] (s : K) :
    create24CellVertices s = v24Int.map (scaleHalf s) := by
  norm_num [create24CellVertices, v24Int, List.range_succ, axisVertex,
    halfVertex, scaleHalf]

theorem getD_map_default {α β : Type} (f : α → β) (l : List α) (d : α) (i : ℕ) :
    (l.map f).getD i (f d) = f (l.getD i d) := by
  induction l generalizing i with
  | nil => simp
  | cons a t ih =>
    cases i with
    | zero => simp
    | succ n => simp only [List.map_cons, List.getD_cons_succ]; exact ih n

theorem scaleHalf_default {K : Type} [LinearOrderedField K] (s : K) :
    scaleHalf s (default : Vec4 ℤ) = (default : Vec4 K) := by
  simp [scaleHalf, default]

theorem v24_getD {K : Type} [LinearOrderedField K] (s : K) (i : ℕ) :
    (create24CellVertices s).getD i default =
      scaleHalf s (v24Int.getD i default) := by
  rw [v24_scale]
  rw [show (default : Vec4 K) = scaleHalf s (default : Vec4 ℤ) from
    (scaleHalf_default s).symm]
  exact getD_map_default _ _ _ i

theorem dist2_scaleHalf {K : Type} [LinearOrderedField K] (s : K)
    (u v : Vec4 ℤ) :
    dist2 (scaleHalf s u) (scaleHalf s v) =
      (s / 2) ^ 2 * ((dist2 u v : ℤ) : K) := by
  simp only [dist2, scaleHalf]
  push_cast
  ring

set_option maxRecDepth 10000 in
theorem d24_classify :
    ∀ p ∈ upperPairs 24, ((d24 p = 4 ∨ 8 ≤ d24 p) ∧ d24 p ≤ 16) := by
  decide

theorem v24Int_length : v24Int.length = 24 := by decide

theorem create24CellVertices_length {K : Type} [LinearOrderedField K] (s : K) :
    (create24CellVertices s).length = 24 := by
  rw [v24_scale, List.length_map, v24Int_length]

theorem create24Cell_edges_def {K : Type} [LinearOrderedField K] (s : K) :
    (create24Cell s).edges =
      (upperPairs (create24CellVertices s).length).filter fun p =>
        decide (|dist2 ((create24CellVertices s).getD p.1 default)
          ((create24CellVertices s).getD p.2 default) - s * s| < 1 / 100) := rfl

theorem create24Cell_edges_eq_int {K : Type} [LinearOrderedField K] (s : K)
    (hs : 1 / 100 ≤ s ^ 2) :
    (create24Cell s).edges =
      (upperPairs 24).filter fun p => decide (d24 p = 4) := by
  rw [create24Cell_edges_def, create24CellVertices_length]
  refine List.filter_congr ?_
  intro p hp
  have hcls := d24_classify p hp
  have hd : dist2 (v24Int.getD p.1 default) (v24Int.getD p.2 default) =
    d24 p := rfl
  rw [v24_getD, v24_getD, dist2_scaleHalf, hd]
  rcases hcls.1 with h4 | h8
  · rw [h4]
    have hval : (s / 2) ^ 2 * ((4 : ℤ) : K) - s * s = 0 := by push_cast; ring
    have h01 : |(s / 2) ^ 2 * ((4 : ℤ) : K) - s * s| < 1 / 100 := by
      rw [hval, abs_zero]; norm_num
    rw [decide_eq_decide]
    exact iff_of_true h01 rfl
  · have hne : ¬(d24 p = 4) := by omega
    have hd8 : (8 : K) ≤ ((d24 p : ℤ) : K) := by exact_mod_cast h8
    have hval : (1 : K) / 100 ≤ (s / 2) ^ 2 * ((d24 p : ℤ) : K) - s * s := by
      have h1 : (0 : K) ≤ s ^ 2 * (((d24 p : ℤ) : K) - 8) :=
        mul_nonneg (sq_nonneg s) (by linarith)
      nlinarith [h1]
    have hnlt : ¬(|(s / 2) ^ 2 * ((d24 p : ℤ) : K) - s * s| < 1 / 100) := by
      rw [abs_of_nonneg (by linarith)]
      linarith
    rw [decide_eq_decide]
    exact iff_of_false hnlt hne

set_option maxRecDepth 10000 in
theorem count96 :
    ((upperPairs 24).filter fun p => decide (d24 p = 4)).length = 96 := by
  decide

set_option maxRecDepth 10000 in
theorem degree8Int : ∀ v ∈ List.range 24,
    (((upperPairs 24).filter fun p => decide (d24 p = 4)).countP
      fun e => decide (e.1 = v) || decide (e.2 = v)) = 8 := by
  decide

set_option maxRecDepth 10000 in
theorem edges24_small_all :
    (create24Cell ((1 : ℚ) / 20)).edges = upperPairs 24 := by
  rw [create24Cell_edges_def, create24CellVertices_length]
  refine List.filter_eq_self.mpr ?_
  intro p hp
  have hcls := d24_classify p hp
  have h4 : (4 : ℤ) ≤ d24 p := by rcases hcls.1 with h | h <;> omega
  have h16 := hcls.2
  have hd : dist2 (v24Int.getD p.1 default) (v24Int.getD p.2 default) =
    d24 p := rfl
  rw [v24_getD, v24_getD, dist2_scaleHalf, hd]
  have hc4 : (4 : ℚ) ≤ ((d24 p : ℤ) : ℚ) := by exact_mod_cast h4
  have hc16 : ((d24 p : ℤ) : ℚ) ≤ (16 : ℚ) := by exact_mod_cast h16
  rw [decide_eq_true_eq]
  rw [abs_of_nonneg (by linarith)]
  linarith

end Cell24Model

section ClaimTheoremsCounts

set_option maxRecDepth 10000 in
/-- C4 counterexample: at size 1/20 the tolerance band 0.01 of the 24-cell
edge filter admits every vertex pair, giving 276 edges instead of the
claimed 96, so the counts do not hold for every size. -/
theorem C4_counterexample :
    (create24Cell ((1 : ℚ) / 20)).vertices.length = 24 ∧
    (create24Cell ((1 : ℚ) / 20)).edges.length = 276 ∧ (276 : ℕ) ≠ 96 := by
  refine ⟨create24CellVertices_length _, ?_, by norm_num⟩
  rw [edges24_small_all]
  decide

/-- C4 amended: over every linear ordered field, createTesseract yields 16
vertices and 32 edges and create16Cell 8 and 24 for every size, create5Cell 5
and 10 for every real size, and create24Cell 24 vertices, 96 edges and
degree 8 everywhere for every size s with s^2 at least 1/100 (equivalently
|s| at least 0.1; smaller sizes collapse the tolerance-banded edge filter). -/
theorem C4_amended {K : Type} [LinearOrderedField K] (s : K) (r : ℝ)
    (hs : 1 / 100 ≤ s ^ 2) :
    (createTesseract s).vertices.length = 16 ∧
    (createTesseract s).edges.length = 32 ∧
    (create16Cell s).vertices.length = 8 ∧
    (create16Cell s).edges.length = 24 ∧
    (create5Cell r).vertices.length = 5 ∧
    (create5Cell r).edges.length = 10 ∧
    (create24Cell s).vertices.length = 24 ∧
    (create24Cell s).edges.length = 96 ∧
    (∀ v ∈ List.range 24,
      ((create24Cell s).edges.countP
        fun e => decide (e.1 = v) || decide (e.2 = v)) = 8) := by
  refine ⟨rfl, rfl, rfl, rfl, rfl, rfl, create24CellVertices_length _, ?_, ?_⟩
  · rw [create24Cell_edges_eq_int s hs, count96]
  · intro v hv
    rw [create24Cell_edges_eq_int s hs]
    exact degree8Int v hv

/-- Witness for C4 amended at the catalog's actual size 1. -/
theorem C4_witness :
    (1 : ℚ) / 100 ≤ (1 : ℚ) ^ 2 ∧
    ((createTesseract (1 : ℚ)).vertices.length = 16 ∧
     (createTesseract (1 : ℚ)).edges.length = 32 ∧
     (create16Cell (1 : ℚ)).vertices.length = 8 ∧
     (create16Cell (1 : ℚ)).edges.length = 24 ∧
     (create5Cell (1 : ℝ)).vertices.length = 5 ∧
     (create5Cell (1 : ℝ)).edges.length = 10 ∧
     (create24Cell (1 : ℚ)).vertices.length = 24 ∧
     (create24Cell (1 : ℚ)).edges.length = 96 ∧
     (∀ v ∈ List.range 24,
       ((create24Cell (1 : ℚ)).edges.countP
         fun e => decide (e.1 = v) || decide (e.2 = v)) = 8)) :=
  ⟨by norm_num, C4_amended (1 : ℚ) (1 : ℝ) (by norm_num)⟩

end ClaimTheoremsCounts

section SphereModel

theorem cappedMap_foldl_of_le {α β : Type} (cap : ℕ) (f : α → β) :
    ∀ (l : List α) (acc : List β), acc.length + l.length ≤ cap →
      l.foldl (fun a x => if a.length < cap then a ++ [f x] else a) acc =
        acc ++ l.map f := by
  intro l
  induction l with
  | nil => intro acc _; simp
  | cons x t ih =>
    intro acc h
    have hlt : acc.length < cap := by simp at h; omega
    simp only [List.foldl_cons, if_pos hlt]
    rw [ih (acc ++ [f x]) (by simp at h ⊢; omega)]
    simp

theorem cappedMap_eq_map {α β : Type} (cap : ℕ) (f : α → β) (l : List α)
    (h : l.length ≤ cap) : cappedMap cap f l = l.map f := by
  rw [cappedMap]
  simpa using cappedMap_foldl_of_le cap f l [] (by simpa using h)

theorem getD_map_lt {α β : Type} (f : α → β) :
    ∀ (l : List α) (i : ℕ), i < l.length → ∀ (d : β) (d' : α),
      (l.map f).getD i d = f (l.getD i d') := by
  intro l
  induction l with
  | nil => intro i h; simp at h
  | cons a t ih =>
    intro i h d d'
    cases i with
    | zero => simp
    | succ n =>
      simp only [List.map_cons, List.getD_cons_succ]
      exact ih n (by simpa using h) d d'

set_option maxRecDepth 10000 in
theorem sphere14_vertices :
    (create4DSphere 1 4).vertices =
      (sphereSampleIndices 4).map fun t => sphereVertex 1 4 t.1 t.2.1 t.2.2 := by
  simp only [create4DSphere]
  rw [show min 4 5 = 4 from rfl]
  exact cappedMap_eq_map _ _ _ (by decide)

theorem sphereVertex_at_pole (j k : ℕ) :
    sphereVertex 1 4 0 j k = ⟨0, 0, 0, 1⟩ := by
  simp [sphereVertex]

end SphereModel

section ClaimTheoremsSphere

set_option maxRecDepth 10000 in
/-- C3 (failing input, create4DSphere at the catalog call radius 1 and the
default detail 4): the sample points at indices 0 and 1 (loop indices
(0,0,0) and (0,0,1), where sin(theta1) = 0 collapses the x, y, z terms) are
both exactly (0, 0, 0, 1), so two distinct in-range vertices are at distance
0 < 1e-3, violating the no-duplicate-vertices postcondition that the repo's
own runShapeValidation checks. -/
theorem C3_sphere_duplicate_vertices :
    (create4DSphere 1 4).vertices.getD 0 default = ⟨0, 0, 0, 1⟩ ∧
    (create4DSphere 1 4).vertices.getD 1 default = ⟨0, 0, 0, 1⟩ ∧
    dist2 ((create4DSphere 1 4).vertices.getD 0 default)
      ((create4DSphere 1 4).vertices.getD 1 default) = 0 ∧
    (0 : ℝ) < 1 / 1000 ∧
    1 < (create4DSphere 1 4).vertices.length := by
  have h0 : (create4DSphere 1 4).vertices.getD 0 default = ⟨0, 0, 0, 1⟩ := by
    rw [sphere14_vertices, getD_map_lt _ _ 0 (by decide) _ ((0, 0, 0) : ℕ × ℕ × ℕ)]
    rw [show (sphereSampleIndices 4).getD 0 ((0, 0, 0) : ℕ × ℕ × ℕ) = (0, 0, 0)
      from by decide]
    exact sphereVertex_at_pole 0 0
  have h1 : (create4DSphere 1 4).vertices.getD 1 default = ⟨0, 0, 0, 1⟩ := by
    rw [sphere14_vertices, getD_map_lt _ _ 1 (by decide) _ ((0, 0, 0) : ℕ × ℕ × ℕ)]
    rw [show (sphereSampleIndices 4).getD 1 ((0, 0, 0) : ℕ × ℕ × ℕ) = (0, 0, 1)
      from by decide]
    exact sphereVertex_at_pole 0 1
  refine ⟨h0, h1, ?_, by norm_num, ?_⟩
  · rw [h0, h1]
    simp [dist2]
  · rw [sphere14_vertices, List.length_map]
    decide

end ClaimTheoremsSphere

section RotationLemmas

theorem tesseract2_vertex0 :
    (createTesseract (2 : ℝ)).vertices.getD 0 default = ⟨-1, -1, -1, -1⟩ := by
  simp only [createTesseract]
  rw [getD_map_lt _ _ 0 (by decide) _ 0,
    show (List.range 16).getD 0 0 = 0 from by decide]
  norm_num [tesseractVertex]

theorem rotateXW_pi_div_two_vertex :
    mulMatVec4 (rotateXW (Real.pi / 2)) (⟨-1, -1, -1, -1⟩ : Vec4 ℝ) =
      ⟨1, -1, -1, -1⟩ := by
  simp only [rotateXW, mulMatVec4, Real.cos_pi_div_two, Real.sin_pi_div_two]
  norm_num

theorem length4_rotateXY (θ : ℝ) (v : Vec4 ℝ) :
    length4 (mulMatVec4 (rotateXY θ) v) = length4 v := by
  rw [length4, length4]
  congr 1
  simp only [mulMatVec4, rotateXY, dot4]
  linear_combination (v.x ^ 2 + v.y ^ 2) * Real.sin_sq_add_cos_sq θ

theorem length4_rotateXZ (θ : ℝ) (v : Vec4 ℝ) :
    length4 (mulMatVec4 (rotateXZ θ) v) = length4 v := by
  rw [length4, length4]
  congr 1
  simp only [mulMatVec4, rotateXZ, dot4]
  linear_combination (v.x ^ 2 + v.z ^ 2) * Real.sin_sq_add_cos_sq θ

theorem length4_rotateXW (θ : ℝ) (v : Vec4 ℝ) :
    length4 (mulMatVec4 (rotateXW θ) v) = length4 v := by
  rw [length4, length4]
  congr 1
  simp only [mulMatVec4, rotateXW, dot4]
  linear_combination (v.x ^ 2 + v.w ^ 2) * Real.sin_sq_add_cos_sq θ

theorem length4_rotateYZ (θ : ℝ) (v : Vec4 ℝ) :
    length4 (mulMatVec4 (rotateYZ θ) v) = length4 v := by
  rw [length4, length4]
  congr 1
  simp only [mulMatVec4, rotateYZ, dot4]
  linear_combination (v.y ^ 2 + v.z ^ 2) * Real.sin_sq_add_cos_sq θ

theorem length4_rotateYW (θ : ℝ) (v : Vec4 ℝ) :
    length4 (mulMatVec4 (rotateYW θ) v) = length4 v := by
  rw [length4, length4]
  congr 1
  simp only [mulMatVec4, rotateYW, dot4]
  linear_combination (v.y ^ 2 + v.w ^ 2) * Real.sin_sq_add_cos_sq θ

theorem length4_rotateZW (θ : ℝ) (v : Vec4 ℝ) :
    length4 (mulMatVec4 (rotateZW θ) v) = length4 v := by
  rw [length4, length4]
  congr 1
  simp only [mulMatVec4, rotateZW, dot4]
  linear_combination (v.z ^ 2 + v.w ^ 2) * Real.sin_sq_add_cos_sq θ

theorem length4_generator {m : Mat4x4 ℝ} (h : IsRotationGenerator m)
    (v : Vec4 ℝ) : length4 (mulMatVec4 m v) = length4 v := by
  rcases h with ⟨θ, rfl⟩ | ⟨θ, rfl⟩ | ⟨θ, rfl⟩ | ⟨θ, rfl⟩ | ⟨θ, rfl⟩ | ⟨θ, rfl⟩
  · exact length4_rotateXY θ v
  · exact length4_rotateXZ θ v
  · exact length4_rotateXW θ v
  · exact length4_rotateYZ θ v
  · exact length4_rotateYW θ v
  · exact length4_rotateZW θ v

theorem mulMatVec4_id {K : Type} [LinearOrderedField K] (v : Vec4 K) :
    mulMatVec4 identity4 v = v := by
  simp [mulMatVec4, identity4]

theorem mulMat4_id_left {K : Type} [LinearOrderedField K] (m : Mat4x4 K) :
    mulMat4 identity4 m = m := by
  simp [mulMat4, identity4]

theorem mulMatVec4_mulMat4 {K : Type} [LinearOrderedField K]
    (a b : Mat4x4 K) (v : Vec4 K) :
    mulMatVec4 (mulMat4 a b) v = mulMatVec4 a (mulMatVec4 b v) := by
  simp only [mulMat4, mulMatVec4]
  rw [Vec4.mk.injEq]
  refine ⟨by ring, by ring, by ring, by ring⟩

theorem mulMatVec4_foldl (ms : List (Mat4x4 ℝ)) :
    ∀ (a : Mat4x4 ℝ) (v : Vec4 ℝ),
      mulMatVec4 (ms.foldl mulMat4 a) v =
        mulMatVec4 a (mulMatVec4 (composeRotations ms) v) := by
  induction ms with
  | nil => intro a v; simp [composeRotations, mulMatVec4_id]
  | cons m t ih =>
    intro a v
    simp only [List.foldl_cons, composeRotations] at ih ⊢
    rw [ih (mulMat4 a m) v, ih (mulMat4 identity4 m) v,
      mulMatVec4_mulMat4, mulMatVec4_mulMat4, mulMatVec4_id]

theorem mulMatVec4_composeRotations_cons (m : Mat4x4 ℝ) (t : List (Mat4x4 ℝ))
    (v : Vec4 ℝ) :
    mulMatVec4 (composeRotations (m :: t)) v =
      mulMatVec4 m (mulMatVec4 (composeRotations t) v) := by
  simp only [composeRotations, List.foldl_cons]
  rw [mulMatVec4_foldl t (mulMat4 identity4 m) v, mulMat4_id_left]
  rfl

theorem length4_composeRotations (ms : List (Mat4x4 ℝ))
    (h : ∀ m ∈ ms, IsRotationGenerator m) (v : Vec4 ℝ) :
    length4 (mulMatVec4 (composeRotations ms) v) = length4 v := by
  induction ms generalizing v with
  | nil => simp [composeRotations, mulMatVec4_id]
  | cons m t ih =>
    rw [mulMatVec4_composeRotations_cons]
    rw [length4_generator (h m (by simp)) _]
    exact ih (fun x hx => h x (by simp [hx])) v

theorem abs_w_le_length4 (v : Vec4 ℝ) : |v.w| ≤ length4 v := by
  rw [length4, dot4,
    show |v.w| = Real.sqrt (v.w ^ 2) from (Real.sqrt_sq_eq_abs _).symm]
  apply Real.sqrt_le_sqrt
  nlinarith [sq_nonneg v.x, sq_nonneg v.y, sq_nonneg v.z]

end RotationLemmas

section ClaimTheoremsRotation

/-- C1 counterexample: the size-2 tesseract vertex 0 is (-1,-1,-1,-1), and
rotating it by pi/2 in the XW plane then projecting orthographically does NOT
land at (-1,-1,-1): the source generator's Givens block (c,-s;s,c) on (x,w)
gives x-prime = -w and w-prime = x at pi/2, not the x-prime = w, w-prime = -x
convention the claim predicts, so the x coordinate lands at +1. -/
theorem C1_counterexample :
    (createTesseract (2 : ℝ)).vertices.getD 0 default = ⟨-1, -1, -1, -1⟩ ∧
    projectOrthographic4Dto3D (mulMatVec4 (rotateXW (Real.pi / 2))
      ((createTesseract (2 : ℝ)).vertices.getD 0 default)) ≠ ⟨-1, -1, -1⟩ := by
  refine ⟨tesseract2_vertex0, ?_⟩
  rw [tesseract2_vertex0, rotateXW_pi_div_two_vertex]
  intro h
  rw [projectOrthographic4Dto3D, Vec3.mk.injEq] at h
  norm_num at h

/-- C1 amended: under the source's sign convention (x-prime = -w,
w-prime = x at angle pi/2), the size-2 tesseract vertex (-1,-1,-1,-1)
rotated by pi/2 in the XW plane and projected orthographically lands at
(1,-1,-1). -/
theorem C1_amended :
    projectOrthographic4Dto3D (mulMatVec4 (rotateXW (Real.pi / 2))
      ((createTesseract (2 : ℝ)).vertices.getD 0 default)) = ⟨1, -1, -1⟩ := by
  rw [tesseract2_vertex0, rotateXW_pi_div_two_vertex]
  rfl

/-- C9: rotation composition is non-commutative (witnessed by the nonzero
angles a = b = pi/2 in the XY and XW planes, where the composed matrices
differ in entry (0,1)); composeRotations of no matrices is the identity, and
of the six generators all at angle 0 is the identity as well. -/
theorem C9_composition_properties :
    (∃ a b : ℝ, a ≠ 0 ∧ b ≠ 0 ∧
      composeRotations [rotateXY a, rotateXW b] ≠
        composeRotations [rotateXW b, rotateXY a]) ∧
    composeRotations ([] : List (Mat4x4 ℝ)) = identity4 ∧
    composeRotations [rotateXY 0, rotateXZ 0, rotateXW 0, rotateYZ 0,
      rotateYW 0, rotateZW 0] = identity4 := by
  refine ⟨⟨Real.pi / 2, Real.pi / 2, ?_, ?_, ?_⟩, rfl, ?_⟩
  · positivity
  · positivity
  · intro h
    have h01 := congrArg (fun m => m.r0.y) h
    simp only [composeRotations, List.foldl_cons, List.foldl_nil, mulMat4,
      identity4, rotateXY, rotateXW, Real.cos_pi_div_two,
      Real.sin_pi_div_two] at h01
    norm_num at h01
  · have hxy : rotateXY 0 = identity4 := by
      simp [rotateXY, identity4, Real.cos_zero, Real.sin_zero]
    have hxz : rotateXZ 0 = identity4 := by
      simp [rotateXZ, identity4, Real.cos_zero, Real.sin_zero]
    have hxw : rotateXW 0 = identity4 := by
      simp [rotateXW, identity4, Real.cos_zero, Real.sin_zero]
    have hyz : rotateYZ 0 = identity4 := by
      simp [rotateYZ, identity4, Real.cos_zero, Real.sin_zero]
    have hyw : rotateYW 0 = identity4 := by
      simp [rotateYW, identity4, Real.cos_zero, Real.sin_zero]
    have hzw : rotateZW 0 = identity4 := by
      simp [rotateZW, identity4, Real.cos_zero, Real.sin_zero]
    rw [hxy, hxz, hxw, hyz, hyw, hzw]
    simp only [composeRotations, List.foldl_cons, List.foldl_nil]
    rw [mulMat4_id_left, mulMat4_id_left, mulMat4_id_left, mulMat4_id_left,
      mulMat4_id_left, mulMat4_id_left]

/-- C10: each of the six rotation generators preserves length4 for every
angle and every vector, so does any composition of generators, and hence the
|w| coordinate of any transformed vertex never exceeds the vertex's original
norm. -/
theorem C10_rotation_isometry :
    (∀ (θ : ℝ) (v : Vec4 ℝ),
      length4 (mulMatVec4 (rotateXY θ) v) = length4 v ∧
      length4 (mulMatVec4 (rotateXZ θ) v) = length4 v ∧
      length4 (mulMatVec4 (rotateXW θ) v) = length4 v ∧
      length4 (mulMatVec4 (rotateYZ θ) v) = length4 v ∧
      length4 (mulMatVec4 (rotateYW θ) v) = length4 v ∧
      length4 (mulMatVec4 (rotateZW θ) v) = length4 v) ∧
    (∀ (ms : List (Mat4x4 ℝ)) (v : Vec4 ℝ),
      (∀ m ∈ ms, IsRotationGenerator m) →
      length4 (mulMatVec4 (composeRotations ms) v) = length4 v ∧
      |(mulMatVec4 (composeRotations ms) v).w| ≤ length4 v) := by
  constructor
  · intro θ v
    exact ⟨length4_rotateXY θ v, length4_rotateXZ θ v, length4_rotateXW θ v,
      length4_rotateYZ θ v, length4_rotateYW θ v, length4_rotateZW θ v⟩
  · intro ms v h
    have hc := length4_composeRotations ms h v
    exact ⟨hc, hc ▸ abs_w_le_length4 (mulMatVec4 (composeRotations ms) v)⟩

/-- Witness for C10: the composition consisting of the single generator
rotateXY at angle 1 preserves the norm of (1,2,3,4) and bounds its |w|. -/
theorem C10_witness :
    length4 (mulMatVec4 (composeRotations [rotateXY 1]) ⟨1, 2, 3, 4⟩) =
      length4 (⟨1, 2, 3, 4⟩ : Vec4 ℝ) ∧
    |(mulMatVec4 (composeRotations [rotateXY 1]) (⟨1, 2, 3, 4⟩ : Vec4 ℝ)).w| ≤
      length4 (⟨1, 2, 3, 4⟩ : Vec4 ℝ) :=
  C10_rotation_isometry.2 [rotateXY 1] ⟨1, 2, 3, 4⟩ (by
    intro m hm
    rw [List.mem_singleton] at hm
    subst hm
    exact Or.inl ⟨1, rfl⟩)

end ClaimTheoremsRotation

section ClaimTheoremsPipeline

/-- C2 amended: on a tick with auto-rotation disabled, no active shape
transition, no active slice scan, every manual rotation angle within 1e-3 of
the stored dirty-check snapshot (with auto-rotation off the accumulator is
frozen, so the total rotation change equals the manual change), and the
projection/slice/color configuration within the code's tolerances of the
snapshot, the dirty-check fails and the tick is a complete no-op: no
transform or projection work runs and every published output (positions,
visibility, colors, minW/maxW) is exactly the previous tick's. -/
theorem C2_dirty_check_skip (inp : FrameInputs) (st : PipelineState)
    (hauto : inp.isAutoRotating = false)
    (htrans : 1 ≤ st.transitionProgress)
    (hscan : (inp.isSliceAnimating && inp.showSlice) = false)
    (hxy : |inp.rotation.xy - st.lastUpdate.rotation.xy| ≤ 1 / 1000)
    (hxz : |inp.rotation.xz - st.lastUpdate.rotation.xz| ≤ 1 / 1000)
    (hxw : |inp.rotation.xw - st.lastUpdate.rotation.xw| ≤ 1 / 1000)
    (hyz : |inp.rotation.yz - st.lastUpdate.rotation.yz| ≤ 1 / 1000)
    (hyw : |inp.rotation.yw - st.lastUpdate.rotation.yw| ≤ 1 / 1000)
    (hzw : |inp.rotation.zw - st.lastUpdate.rotation.zw| ≤ 1 / 1000)
    (hmode : inp.projectionMode = st.lastUpdate.projectionMode)
    (hvd : |st.lastUpdate.viewDistance - inp.viewDistance| ≤ 1 / 100)
    (hss : inp.showSlice = st.lastUpdate.showSlice)
    (hsp : |st.lastUpdate.wSlicePosition - inp.wSlicePosition| ≤ 1 / 100)
    (hsth : |st.lastUpdate.wSliceThickness - inp.wSliceThickness| ≤ 1 / 100)
    (hcw : inp.colorByW = st.lastUpdate.colorByW) :
    needsUpdateCalc inp st = false ∧ tick inp st = st := by
  obtain ⟨accum, prog, last, pub⟩ := st
  have h1 : ¬(prog < 1) := not_lt.mpr htrans
  have hfalse : needsUpdateCalc inp ⟨accum, prog, last, pub⟩ = false := by
    simp only [needsUpdateCalc, Bool.or_eq_false_iff, decide_eq_false_iff_not,
      not_lt, not_ne_iff]
    repeat' apply And.intro
    all_goals assumption
  refine ⟨hfalse, ?_⟩
  rw [tick]
  simp only [hfalse, Bool.false_eq_true, if_false, hauto, advanceTransitionProgress,
    if_neg h1]

/-- Witness for C2 amended: a fully concrete resting state (all rotations
zero, matching snapshot, transition finished, no scan) skips the tick and
leaves the state untouched. -/
theorem C2_witness :
    needsUpdateCalc
      ⟨⟨0, 0, 0, 0, 0, 0⟩, ⟨0, 0, 0, 0, 0, 0⟩, false, ProjMode.perspective, 3,
       true, true, false, 0, 1 / 10, false, false, 1, [], [], none, 1 / 60⟩
      ⟨⟨0, 0, 0, 0, 0, 0⟩, 1,
       ⟨⟨0, 0, 0, 0, 0, 0⟩, ProjMode.perspective, 3, false, 0, 1 / 10, false⟩,
       ⟨[], [], [], [], [], 0, 0⟩⟩ = false ∧
    tick
      ⟨⟨0, 0, 0, 0, 0, 0⟩, ⟨0, 0, 0, 0, 0, 0⟩, false, ProjMode.perspective, 3,
       true, true, false, 0, 1 / 10, false, false, 1, [], [], none, 1 / 60⟩
      ⟨⟨0, 0, 0, 0, 0, 0⟩, 1,
       ⟨⟨0, 0, 0, 0, 0, 0⟩, ProjMode.perspective, 3, false, 0, 1 / 10, false⟩,
       ⟨[], [], [], [], [], 0, 0⟩⟩ =
      ⟨⟨0, 0, 0, 0, 0, 0⟩, 1,
       ⟨⟨0, 0, 0, 0, 0, 0⟩, ProjMode.perspective, 3, false, 0, 1 / 10, false⟩,
       ⟨[], [], [], [], [], 0, 0⟩⟩ :=
  C2_dirty_check_skip _ _ rfl (by norm_num) rfl (by norm_num) (by norm_num)
    (by norm_num) (by norm_num) (by norm_num) (by norm_num) rfl (by norm_num)
    rfl (by norm_num) (by norm_num) rfl

/-- C2 counterexample: with auto-rotation ENABLED but all six angular
velocities zero, the total rotation is exactly unchanged (the accumulator
advance is the identity), the configuration equals the stored snapshot, and
no transition or scan is active — yet the dirty-check reports true, so the
pipeline redoes the transform/projection work that tick, contradicting the
claim that unchanged totals alone suffice to skip. -/
theorem C2_counterexample :
    needsUpdateCalc
      ⟨⟨0, 0, 0, 0, 0, 0⟩, ⟨0, 0, 0, 0, 0, 0⟩, true, ProjMode.perspective, 3,
       true, true, false, 0, 1 / 10, false, false, 1, [], [], none, 1 / 60⟩
      ⟨⟨0, 0, 0, 0, 0, 0⟩, 1,
       ⟨⟨0, 0, 0, 0, 0, 0⟩, ProjMode.perspective, 3, false, 0, 1 / 10, false⟩,
       ⟨[], [], [], [], [], 0, 0⟩⟩ = true ∧
    advanceAccum ⟨0, 0, 0, 0, 0, 0⟩ ⟨0, 0, 0, 0, 0, 0⟩ (1 / 60) =
      ⟨0, 0, 0, 0, 0, 0⟩ := by
  constructor
  · simp [needsUpdateCalc]
  · simp only [advanceAccum, RotationState.mk.injEq]
    norm_num

end ClaimTheoremsPipeline

end Hyper4D
